import Mathlib

/-!
# uwsd: the per-connection lifecycle manager (`client.c`)

A shallow embedding of `client.c`: `client_create`, `client_free`,
`client_free_all`, `client_recv`, `client_send`, `client_sendv` and
`client_sendfile`.

Modelling conventions.

* Pointers are natural numbers (`Ptr`); a nullable pointer is an `Option`.
* The global `clients` list is a Lean list of context pointers, in list
  order; the contexts themselves live in a heap `Ptr → Option ctx`.
* Calls into libc, uloop and the collaborators (TLS, state machine, script,
  WebSocket) are recorded as events, in program order.  What such a call
  returns is a parameter.  `client_debug` only writes to stderr and is not
  recorded.
* A dereference of a null or dangling pointer ends the run with a `Fault`.
* A `size_t` is a natural number; where the source hands one to an `int`
  parameter (`writev`), the conversion to 32 bits is explicit.
-/

namespace Uwsd

/-- An address in the C heap. -/
abbrev Ptr := Nat

/-! ## Data model (the fields of `client.h` that `client.c` touches) -/

/-- Modelled from the spec: the endpoint type tag; its declaration is not part of
`client.c`, which names only `UWSD_LISTEN_WS` and `UWSD_LISTEN_WSS`. Every other
enumerator is `other n`. -/
inductive uwsd_listen_type where
  | UWSD_LISTEN_WS
  | UWSD_LISTEN_WSS
  | other (n : Nat)
  deriving DecidableEq, Repr

/-- The endpoint `cl->endpoint` points to; only `type` is read here. -/
structure uwsd_endpoint_t where
  type : uwsd_listen_type
  deriving DecidableEq, Repr

/-- The `struct uloop_fd` member: only the descriptor number is read. -/
structure uloop_fd where
  fd : Int
  deriving DecidableEq, Repr

/-- One connection sub-record (`uwsd_connection_t`): `ufd`, the `upstream`
marker and the TLS session pointer `ssl` (null when unencrypted). The timeout
`utm` carries no data that `client.c` reads. -/
structure uwsd_connection_t where
  ufd : uloop_fd
  upstream : Bool
  ssl : Option Ptr
  deriving DecidableEq, Repr

/-- A receive or transmit buffer: the byte array `data` and the cursors `pos`
and `end`, kept as offsets from `data`. -/
structure uwsd_buffer where
  data : List Nat
  pos : Nat
  «end» : Nat
  deriving DecidableEq, Repr

/-- The member `cl->ws.error`. -/
structure ws_error_t where
  code : Nat
  msg : Option String
  deriving DecidableEq, Repr

/-- The member `cl->ws`: the outbound frame queue `txq` (the queued
`ws_txbuf_t` nodes in queue order) and the recorded error. -/
structure ws_t where
  txq : List Ptr
  error : ws_error_t
  deriving DecidableEq, Repr

/-- The member `cl->script`. -/
structure script_t where
  fd : Int
  deriving DecidableEq, Repr

/-- The context `uwsd_client_context_t`. -/
structure uwsd_client_context_t where
  srv : Option Ptr
  endpoint : Option uwsd_endpoint_t
  sa : List Nat
  downstream : uwsd_connection_t
  upstream : uwsd_connection_t
  script : script_t
  rxbuf : uwsd_buffer
  txbuf : uwsd_buffer
  http_num_headers : Nat
  ws : ws_t
  deriving DecidableEq, Repr

/-- The program state `client.c` owns: the list `clients` and the heap of
allocated contexts. -/
structure State where
  clients : List Ptr
  heap : Ptr → Option uwsd_client_context_t

/-! ## Events -/

/-- Which of the two connections of a context. -/
inductive Side where
  | upstream
  | downstream
  deriving DecidableEq, Repr

/-- Which descriptor of a context. -/
inductive Desc where
  | upstream
  | downstream
  | script
  deriving DecidableEq, Repr

/-- The release actions of `client_free`, each named after the resource it
releases. -/
inductive Action where
  | uloop_timeout_cancel (c : Side)
  | uloop_fd_delete (c : Side)
  | close (d : Desc) (fd : Int)
  | uwsd_ssl_free
  | free_txq (e : Ptr)
  | uwsd_script_close
  | free_header_name (i : Nat)
  | free_header_value (i : Nat)
  | free_http_headers
  | free_request_uri
  | free_error_msg
  | list_del
  | free_cl
  deriving DecidableEq, Repr

/-- Modelled from the spec: the states of the external state machine; the header
that declares them is not part of `client.c`, which names only
`STATE_CONN_ACCEPT`, the initial "connection accepted" state. Every other state
is `other n`. -/
inductive uwsd_connection_state_t where
  | STATE_CONN_ACCEPT
  | other (n : Nat)
  deriving DecidableEq, Repr

/-- The calls `client_create` and `client_free_all` make on a context. -/
inductive Event where
  | uwsd_ssl_init (cl : Ptr)
  | uwsd_state_init (cl : Ptr) (st : uwsd_connection_state_t)
  | uwsd_ws_connection_close (cl : Ptr) (code : Nat) (msg : String)
  | client_free (cl : Ptr) (acts : List Action)
  deriving DecidableEq, Repr

/-- A call `client.c` makes for transport: libc on the descriptor, or the TLS
collaborator on the connection. -/
inductive Call where
  | read (fd : Int) (data : Ptr) (len : Nat)
  | write (fd : Int) (data : Ptr) (len : Nat)
  | writev (fd : Int) (iov : Ptr) (iovcnt : Int)
  | sendfile (out_fd : Int) (in_fd : Int) (offset : Option Int) (count : Nat)
  | uwsd_ssl_recv (conn : uwsd_connection_t) (data : Ptr) (len : Nat)
  | uwsd_ssl_send (conn : uwsd_connection_t) (data : Ptr) (len : Nat)
  | uwsd_ssl_sendv (conn : uwsd_connection_t) (iov : Ptr) (len : Nat)
  deriving DecidableEq, Repr

/-- What a transport call leaves behind: its return value and `errno`. -/
structure Result where
  ret : Int
  errno : Int
  deriving DecidableEq, Repr

/-- The transport routines outside `client.c`. Each takes the arguments of the C
function and the value of `errno` before the call. The lengths are `size_t`,
except the `int iovcnt` of `writev`. `sendfile` also gives the value of
`*offset` after the call (`none` is a null `offset`). -/
structure Sys where
  read : Int → Ptr → Nat → Int → Result
  write : Int → Ptr → Nat → Int → Result
  writev : Int → Ptr → Int → Int → Result
  sendfile : Int → Int → Option Int → Nat → Int → Result × Option Int
  uwsd_ssl_recv : uwsd_connection_t → Ptr → Nat → Int → Result
  uwsd_ssl_send : uwsd_connection_t → Ptr → Nat → Int → Result
  uwsd_ssl_sendv : uwsd_connection_t → Ptr → Nat → Int → Result

/-- Why a run stops without a result. -/
inductive Fault where
  | null_deref
  | dangling
  | out_of_fuel
  deriving DecidableEq, Repr

/-! ## Constants from headers outside `client.c` -/

/-- Modelled from the spec: the default graceful-closure status "going away"; the
header that defines `STATUS_GOING_AWAY` is not part of `client.c`. 1001 is the
WebSocket close code of that name. -/
def STATUS_GOING_AWAY : Nat := 1001

/-- The value of `ENOSYS` in the Linux `errno.h`. -/
def ENOSYS : Int := 38

/-- The largest `int` (32 bits). -/
def INT_MAX : Int := 2147483647

/-- The conversion of a `size_t` to `int` that C makes when a `size_t` is passed
for an `int` parameter: the value modulo 2^32, read as a signed 32-bit number. -/
def size_t_to_int (n : Nat) : Int :=
  if n % 4294967296 < 2147483648 then ((n % 4294967296 : Nat) : Int)
  else ((n % 4294967296 : Nat) : Int) - 4294967296

/-! ## `client_create` -/

/-- The libc `memcpy(dst, src, n)` on byte lists: the first `n` bytes come from
`src`, the rest of `dst` stays. -/
def memcpy (dst src : List Nat) (n : Nat) : List Nat :=
  src.take n ++ dst.drop n

/-- The function `client_create(fd, srv, peeraddr, alen, ssl)`.

`cl` and `obj` are what `alloc_obj` returned: the address of the new context and
its initial contents. `uwsd_ssl_init cl` is the return value of the TLS
collaborator. -/
def client_create (uwsd_ssl_init : Ptr → Bool) (cl : Ptr) (obj : uwsd_client_context_t)
    (fd : Int) (srv : Option Ptr) (peeraddr : List Nat) (alen : Nat) (ssl : Bool)
    (s : State) : State × List Event :=
  -- cl->srv = srv;
  let c := { obj with srv := srv }
  -- cl->rxbuf.pos = cl->rxbuf.data; cl->rxbuf.end = cl->rxbuf.pos;
  let c := { c with rxbuf := { c.rxbuf with pos := 0 } }
  let c := { c with rxbuf := { c.rxbuf with «end» := c.rxbuf.pos } }
  -- cl->txbuf.pos = cl->txbuf.data; cl->txbuf.end = cl->txbuf.pos;
  let c := { c with txbuf := { c.txbuf with pos := 0 } }
  let c := { c with txbuf := { c.txbuf with «end» := c.txbuf.pos } }
  -- cl->upstream.upstream = true;
  let c := { c with upstream := { c.upstream with upstream := true } }
  -- cl->downstream.ufd.fd = fd; cl->upstream.ufd.fd = -1; cl->script.fd = -1;
  let c := { c with downstream := { c.downstream with ufd := { fd := fd } } }
  let c := { c with upstream := { c.upstream with ufd := { fd := -1 } } }
  let c := { c with script := { fd := -1 } }
  -- memcpy(&cl->sa.unspec, peeraddr, alen);
  let c := { c with sa := memcpy c.sa peeraddr alen }
  -- INIT_LIST_HEAD(&cl->ws.txq);
  let c := { c with ws := { c.ws with txq := [] } }
  -- list_add_tail(&cl->list, &clients);
  let s1 : State := { clients := s.clients ++ [cl],
                      heap := fun q => if q = cl then some c else s.heap q }
  -- if (ssl && !uwsd_ssl_init(cl)) return;
  if ssl then
    if !uwsd_ssl_init cl then
      (s1, [Event.uwsd_ssl_init cl])
    else
      -- uwsd_state_init(cl, STATE_CONN_ACCEPT);
      (s1, [Event.uwsd_ssl_init cl,
            Event.uwsd_state_init cl uwsd_connection_state_t.STATE_CONN_ACCEPT])
  else
    (s1, [Event.uwsd_state_init cl uwsd_connection_state_t.STATE_CONN_ACCEPT])

/-! ## `client_free` -/

/-- The loop `while (cl->http_num_headers > 0)` of `client_free`, started with
the given count: the count it leaves and the frees it makes. -/
def free_headers : Nat → Nat × List Action
  | 0 => (0, [])
  | n + 1 =>
    -- cl->http_num_headers--; free(...[n].name); free(...[n].value);
    let r := free_headers n
    (r.1, Action.free_header_name n :: Action.free_header_value n :: r.2)

/-- Lines 118 to 150 of `client_free`: every release before the context is
unlinked. Gives the context as these lines leave it and the actions in order. -/
def client_release (c : uwsd_client_context_t) : uwsd_client_context_t × List Action :=
  -- uloop_timeout_cancel(&cl->upstream.utm); uloop_fd_delete(&cl->upstream.ufd);
  let a := [Action.uloop_timeout_cancel Side.upstream, Action.uloop_fd_delete Side.upstream]
  -- if (cl->upstream.ufd.fd != -1) close(cl->upstream.ufd.fd);
  let a := if c.upstream.ufd.fd ≠ -1 then a ++ [Action.close Desc.upstream c.upstream.ufd.fd] else a
  -- uloop_timeout_cancel(&cl->downstream.utm); uloop_fd_delete(&cl->downstream.ufd);
  let a := a ++ [Action.uloop_timeout_cancel Side.downstream, Action.uloop_fd_delete Side.downstream]
  -- if (cl->downstream.ufd.fd != -1) close(cl->downstream.ufd.fd);
  let a := if c.downstream.ufd.fd ≠ -1 then
    a ++ [Action.close Desc.downstream c.downstream.ufd.fd] else a
  -- if (cl->downstream.ssl) uwsd_ssl_free(cl);
  let a := if c.downstream.ssl.isSome then a ++ [Action.uwsd_ssl_free] else a
  -- if (cl->script.fd != -1) close(cl->script.fd);
  let a := if c.script.fd ≠ -1 then a ++ [Action.close Desc.script c.script.fd] else a
  -- list_for_each_entry_safe(e, tmp, &cl->ws.txq, list) free(e);
  let a := a ++ c.ws.txq.map Action.free_txq
  -- uwsd_script_close(cl);
  let a := a ++ [Action.uwsd_script_close]
  -- while (cl->http_num_headers > 0) { ... }
  let h := free_headers c.http_num_headers
  let c := { c with http_num_headers := h.1 }
  let a := a ++ h.2
  -- free(cl->http_headers); free(cl->request_uri); free(cl->ws.error.msg);
  let a := a ++ [Action.free_http_headers, Action.free_request_uri, Action.free_error_msg]
  (c, a)

/-- The function `client_free(cl, reason)`. The reason only reaches
`client_debug`. -/
def client_free (s : State) (cl : Ptr) : Except Fault (State × List Action) :=
  match s.heap cl with
  | none => Except.error Fault.dangling
  | some c =>
    let r := client_release c
    -- list_del(&cl->list); free(cl);
    Except.ok ({ clients := s.clients.erase cl,
                 heap := fun q => if q = cl then none else s.heap q },
               r.2 ++ [Action.list_del, Action.free_cl])

/-! ## `client_free_all` -/

/-- The node after `p` in the list (`p->list.next`): `some none` when `p` is the
last node (the next pointer is the list head), `none` when `p` is not linked. -/
def list_next : List Ptr → Ptr → Option (Option Ptr)
  | [], _ => none
  | x :: xs, p => if x = p then some xs.head? else list_next xs p

/-- The loop of `client_free_all`, `list_for_each_entry_safe(cl, tmp, &clients,
list)`, from the cursor `cur` (`none` is the list head, where the loop ends).
`tmp` is read before the body runs. `hook` is the effect of
`uwsd_ws_connection_close` on the state. -/
def client_free_all_loop (hook : Ptr → Nat → String → State → State) :
    Nat → Option Ptr → State → List Event → Except Fault (State × List Event)
  | _, none, s, log => Except.ok (s, log)
  | 0, some _, _, _ => Except.error Fault.out_of_fuel
  | fuel + 1, some cl, s, log =>
    match s.heap cl, list_next s.clients cl with
    | none, _ => Except.error Fault.dangling
    | some _, none => Except.error Fault.dangling
    | some c, some tmp =>
      match c.endpoint with
      | none => Except.error Fault.null_deref
      | some ep =>
        if ep.type = uwsd_listen_type.UWSD_LISTEN_WS
            ∨ ep.type = uwsd_listen_type.UWSD_LISTEN_WSS then
          let code := if c.ws.error.code ≠ 0 then c.ws.error.code else STATUS_GOING_AWAY
          let msg := match c.ws.error.msg with
            | some m => m
            | none => "Server shutting down"
          client_free_all_loop hook fuel tmp (hook cl code msg s)
            (log ++ [Event.uwsd_ws_connection_close cl code msg])
        else
          match client_free s cl with
          | Except.error e => Except.error e
          | Except.ok r =>
            client_free_all_loop hook fuel tmp r.1 (log ++ [Event.client_free cl r.2])

/-- The function `client_free_all()`: the loop from the first node, with one
step of fuel per node of the list. -/
def client_free_all (hook : Ptr → Nat → String → State → State) (s : State) :
    Except Fault (State × List Event) :=
  client_free_all_loop hook s.clients.length s.clients.head? s []

/-! ## Transport -/

/-- The function `client_recv(conn, data, len)`. -/
def client_recv (sys : Sys) (conn : uwsd_connection_t) (data : Ptr) (len : Nat)
    (errno : Int) : Result × List Call :=
  if conn.ssl.isSome then
    (sys.uwsd_ssl_recv conn data len errno, [Call.uwsd_ssl_recv conn data len])
  else
    (sys.read conn.ufd.fd data len errno, [Call.read conn.ufd.fd data len])

/-- The function `client_send(conn, data, len)`. -/
def client_send (sys : Sys) (conn : uwsd_connection_t) (data : Ptr) (len : Nat)
    (errno : Int) : Result × List Call :=
  if conn.ssl.isSome then
    (sys.uwsd_ssl_send conn data len errno, [Call.uwsd_ssl_send conn data len])
  else
    (sys.write conn.ufd.fd data len errno, [Call.write conn.ufd.fd data len])

/-- The function `client_sendv(conn, iov, len)`. The `size_t len` goes to
`uwsd_ssl_sendv` as it is and to `writev` as its `int iovcnt`. -/
def client_sendv (sys : Sys) (conn : uwsd_connection_t) (iov : Ptr) (len : Nat)
    (errno : Int) : Result × List Call :=
  if conn.ssl.isSome then
    (sys.uwsd_ssl_sendv conn iov len errno, [Call.uwsd_ssl_sendv conn iov len])
  else
    -- return writev(conn->ufd.fd, iov, len);
    (sys.writev conn.ufd.fd iov (size_t_to_int len) errno,
      [Call.writev conn.ufd.fd iov (size_t_to_int len)])

/-- The function `client_sendfile(conn, in_fd, offset, count)`: the result, the
value of `*offset` afterwards, and the calls made. -/
def client_sendfile (sys : Sys) (conn : uwsd_connection_t) (in_fd : Int)
    (offset : Option Int) (count : Nat) (errno : Int) :
    (Result × Option Int) × List Call :=
  if conn.ssl.isSome then
    -- errno = ENOSYS; return -1;
    (({ ret := -1, errno := ENOSYS }, offset), [])
  else
    (sys.sendfile conn.ufd.fd in_fd offset count errno,
      [Call.sendfile conn.ufd.fd in_fd offset count])

/-! ## Vocabulary of the statements -/

/-- Whether a call goes to the TLS collaborator. -/
def Call.is_tls : Call → Bool
  | Call.uwsd_ssl_recv _ _ _ => true
  | Call.uwsd_ssl_send _ _ _ => true
  | Call.uwsd_ssl_sendv _ _ _ => true
  | _ => false

/-- Whether a call is a raw libc call on a descriptor. -/
def Call.is_raw : Call → Bool
  | Call.read _ _ _ => true
  | Call.write _ _ _ => true
  | Call.writev _ _ _ => true
  | Call.sendfile _ _ _ _ => true
  | _ => false

/-- The header frees in the order the claim words them: from the last index down
to index 0, the name and then the value of each pair. -/
def header_frees (n : Nat) : List Action :=
  (List.range n).reverse.flatMap
    (fun i => [Action.free_header_name i, Action.free_header_value i])

/-- The descriptor a `close` action closes, with the field it came from. -/
def Action.close_of : Action → Option (Desc × Int)
  | Action.close d fd => some (d, fd)
  | _ => none

/-- The descriptor number a context holds in the given field. -/
def uwsd_client_context_t.fd_of (c : uwsd_client_context_t) : Desc → Int
  | Desc.upstream => c.upstream.ufd.fd
  | Desc.downstream => c.downstream.ufd.fd
  | Desc.script => c.script.fd

/-- Whether `client_free_all` closes the context gracefully: its endpoint type is
`UWSD_LISTEN_WS` or `UWSD_LISTEN_WSS`. -/
def uwsd_client_context_t.graceful (c : uwsd_client_context_t) : Bool :=
  match c.endpoint with
  | some ep =>
    decide (ep.type = uwsd_listen_type.UWSD_LISTEN_WS
      ∨ ep.type = uwsd_listen_type.UWSD_LISTEN_WSS)
  | none => false

/-- Whether the context at address `p` is live and graceful. -/
def State.graceful (s : State) (p : Ptr) : Bool :=
  match s.heap p with
  | some c => c.graceful
  | none => false

/-- The context an event is about. -/
def Event.target : Event → Ptr
  | Event.uwsd_ssl_init cl => cl
  | Event.uwsd_state_init cl _ => cl
  | Event.uwsd_ws_connection_close cl _ _ => cl
  | Event.client_free cl _ => cl

/-- Whether the event is a call of `uwsd_ws_connection_close`. -/
def Event.is_ws_close : Event → Bool
  | Event.uwsd_ws_connection_close _ _ _ => true
  | _ => false

/-- Whether the event is a call of `client_free`. -/
def Event.is_client_free : Event → Bool
  | Event.client_free _ _ => true
  | _ => false

/-- What `uwsd_ws_connection_close` may do to the state during the visit of `cl`:
leave the registry alone or remove `cl` from it, and leave every other context
untouched. -/
def hook_local (hook : Ptr → Nat → String → State → State) : Prop :=
  ∀ cl code msg s,
    ((hook cl code msg s).clients = s.clients
      ∨ (hook cl code msg s).clients = s.clients.erase cl)
    ∧ ∀ q, q ≠ cl → (hook cl code msg s).heap q = s.heap q

/-- The event the visit of `p` produces, read off the heap. -/
def visit_event (heap : Ptr → Option uwsd_client_context_t) (p : Ptr) : Event :=
  match heap p with
  | some c =>
    if c.graceful then
      Event.uwsd_ws_connection_close p
        (if c.ws.error.code ≠ 0 then c.ws.error.code else STATUS_GOING_AWAY)
        (c.ws.error.msg.getD "Server shutting down")
    else
      Event.client_free p ((client_release c).2 ++ [Action.list_del, Action.free_cl])
  | none => Event.client_free p []

/-! ## Concrete inputs -/

/-- A zero-filled context, as a fresh allocation holds it: `client_create` leaves
`http_num_headers`, `downstream.ssl`, `ws.error` and `endpoint` untouched, and
`client_free` reads the first three, so the allocation has to come zero-filled.
The address storage has the 28 bytes of a `sockaddr_in6`; the buffers are given
8 bytes each. -/
def zero_obj : uwsd_client_context_t :=
  { srv := none
    endpoint := none
    sa := List.replicate 28 0
    downstream := { ufd := { fd := 0 }, upstream := false, ssl := none }
    upstream := { ufd := { fd := 0 }, upstream := false, ssl := none }
    script := { fd := 0 }
    rxbuf := { data := List.replicate 8 0, pos := 0, «end» := 0 }
    txbuf := { data := List.replicate 8 0, pos := 0, «end» := 0 }
    http_num_headers := 0
    ws := { txq := [], error := { code := 0, msg := none } } }

/-- The state before any connection was accepted. -/
def empty_state : State :=
  { clients := [], heap := fun _ => none }

/-- A transport whose every routine reports its own distinct return value. -/
def sys0 : Sys :=
  { read := fun _ _ len e => { ret := len, errno := e }
    write := fun _ _ len e => { ret := len + 1, errno := e }
    writev := fun _ _ iovcnt e => { ret := iovcnt + 2, errno := e }
    sendfile := fun _ _ off count e =>
      ({ ret := count, errno := e }, off.map (fun o => o + count))
    uwsd_ssl_recv := fun _ _ len e => { ret := len + 4, errno := e }
    uwsd_ssl_send := fun _ _ len e => { ret := len + 5, errno := e }
    uwsd_ssl_sendv := fun _ _ len e => { ret := len + 6, errno := e } }

/-- An unencrypted connection on descriptor 7. -/
def plain_conn : uwsd_connection_t :=
  { ufd := { fd := 7 }, upstream := false, ssl := none }

/-- An encrypted connection on descriptor 7 with its session at address 99. -/
def tls_conn : uwsd_connection_t :=
  { ufd := { fd := 7 }, upstream := false, ssl := some 99 }

/-- An encrypted WebSocket context in use: downstream on descriptor 5 with a TLS
session, upstream on descriptor 6, no script, two queued frames, two headers. -/
def busy_ctx : uwsd_client_context_t :=
  { srv := some 40
    endpoint := some { type := uwsd_listen_type.UWSD_LISTEN_WSS }
    sa := List.replicate 28 0
    downstream := { ufd := { fd := 5 }, upstream := false, ssl := some 99 }
    upstream := { ufd := { fd := 6 }, upstream := true, ssl := none }
    script := { fd := -1 }
    rxbuf := { data := List.replicate 8 0, pos := 0, «end» := 0 }
    txbuf := { data := List.replicate 8 0, pos := 0, «end» := 0 }
    http_num_headers := 2
    ws := { txq := [70, 71], error := { code := 0, msg := none } } }

/-- A plain HTTP context: downstream on descriptor 8, nothing else open. -/
def plain_ctx : uwsd_client_context_t :=
  { srv := some 40
    endpoint := some { type := uwsd_listen_type.other 0 }
    sa := List.replicate 28 0
    downstream := { ufd := { fd := 8 }, upstream := false, ssl := none }
    upstream := { ufd := { fd := -1 }, upstream := true, ssl := none }
    script := { fd := -1 }
    rxbuf := { data := List.replicate 8 0, pos := 0, «end» := 0 }
    txbuf := { data := List.replicate 8 0, pos := 0, «end» := 0 }
    http_num_headers := 0
    ws := { txq := [], error := { code := 0, msg := none } } }

/-- A WebSocket context with a recorded error. -/
def failed_ctx : uwsd_client_context_t :=
  { srv := some 40
    endpoint := some { type := uwsd_listen_type.UWSD_LISTEN_WS }
    sa := List.replicate 28 0
    downstream := { ufd := { fd := 9 }, upstream := false, ssl := none }
    upstream := { ufd := { fd := -1 }, upstream := true, ssl := none }
    script := { fd := 11 }
    rxbuf := { data := List.replicate 8 0, pos := 0, «end» := 0 }
    txbuf := { data := List.replicate 8 0, pos := 0, «end» := 0 }
    http_num_headers := 1
    ws := { txq := [], error := { code := 1002, msg := some "protocol error" } } }

/-- Three live contexts at addresses 1, 2 and 3, registered in that order. -/
def busy_state : State :=
  { clients := [1, 2, 3]
    heap := fun q =>
      if q = 1 then some busy_ctx
      else if q = 2 then some plain_ctx
      else if q = 3 then some failed_ctx
      else none }

/-- A `uwsd_ws_connection_close` that tears the context down during the call. -/
def closing_hook (cl : Ptr) (_code : Nat) (_msg : String) (s : State) : State :=
  { clients := s.clients.erase cl, heap := fun q => if q = cl then none else s.heap q }

/-! ## Transport theorems -/

/-- C6: on an encrypted connection `client_sendfile` returns -1 with `errno` set
to `ENOSYS`, makes no call at all (neither `sendfile` nor a TLS hook) and leaves
`*offset` as it was; on an unencrypted connection its result, `errno` and
`*offset` are exactly those of `sendfile` on the connection's descriptor, which
is the only call made. -/
theorem client_sendfile_unsupported_iff_encrypted (sys : Sys) (conn : uwsd_connection_t)
    (in_fd : Int) (offset : Option Int) (count : Nat) (errno : Int) :
    (conn.ssl ≠ none →
      (client_sendfile sys conn in_fd offset count errno).1.1.ret = -1
      ∧ (client_sendfile sys conn in_fd offset count errno).1.1.errno = ENOSYS
      ∧ (client_sendfile sys conn in_fd offset count errno).1.2 = offset
      ∧ (client_sendfile sys conn in_fd offset count errno).2 = [])
    ∧ (conn.ssl = none →
      (client_sendfile sys conn in_fd offset count errno).1
          = sys.sendfile conn.ufd.fd in_fd offset count errno
      ∧ (client_sendfile sys conn in_fd offset count errno).2
          = [Call.sendfile conn.ufd.fd in_fd offset count]) := by
  constructor
  · intro h
    obtain ⟨p, hp⟩ := Option.ne_none_iff_exists'.mp h
    simp [client_sendfile, hp]
  · intro h
    simp [client_sendfile, h]

/-- Witness of C6 on an encrypted and on an unencrypted connection. -/
theorem client_sendfile_unsupported_iff_encrypted_witness :
    (tls_conn.ssl ≠ none ∧ (client_sendfile sys0 tls_conn 3 (some 10) 5 0).1.1.ret = -1
      ∧ (client_sendfile sys0 tls_conn 3 (some 10) 5 0).1.1.errno = ENOSYS
      ∧ (client_sendfile sys0 tls_conn 3 (some 10) 5 0).1.2 = some 10
      ∧ (client_sendfile sys0 tls_conn 3 (some 10) 5 0).2 = [])
    ∧ (plain_conn.ssl = none ∧ (client_sendfile sys0 plain_conn 3 (some 10) 5 0).1
          = sys0.sendfile plain_conn.ufd.fd 3 (some 10) 5 0
      ∧ (client_sendfile sys0 plain_conn 3 (some 10) 5 0).2
          = [Call.sendfile plain_conn.ufd.fd 3 (some 10) 5]) :=
  ⟨⟨by decide,
      (client_sendfile_unsupported_iff_encrypted sys0 tls_conn 3 (some 10) 5 0).1 (by decide)⟩,
    ⟨rfl,
      (client_sendfile_unsupported_iff_encrypted sys0 plain_conn 3 (some 10) 5 0).2 rfl⟩⟩

theorem size_t_to_int_of_le (n : Nat) (h : (n : Int) ≤ INT_MAX) :
    size_t_to_int n = (n : Int) := by
  have hn : n < 2147483648 := by
    unfold INT_MAX at h
    omega
  have hmod : n % 4294967296 = n := Nat.mod_eq_of_lt (by omega)
  simp [size_t_to_int, hmod, hn]

/-- C7, as the code has it: transport parity. On an unencrypted connection
`client_recv`, `client_send` and `client_sendfile` give exactly the result of
`read`, `write` and `sendfile` on the connection's descriptor with the same
arguments, and `client_sendv` gives exactly the result of `writev` on the
descriptor with the same iovec and with `len` converted to the `int iovcnt` of
`writev`, which is `len` itself whenever `len` is at most `INT_MAX`; that call is
the only one made, and no call goes to TLS. On an encrypted connection
`client_recv`, `client_send` and `client_sendv` give exactly the result of
`uwsd_ssl_recv`, `uwsd_ssl_send` and `uwsd_ssl_sendv` with the same arguments,
and no raw call is made on the descriptor. -/
theorem transport_parity (sys : Sys) (conn : uwsd_connection_t) (data iov : Ptr)
    (len : Nat) (in_fd : Int) (offset : Option Int) (count : Nat) (errno : Int) :
    (conn.ssl = none →
      client_recv sys conn data len errno
          = (sys.read conn.ufd.fd data len errno, [Call.read conn.ufd.fd data len])
      ∧ client_send sys conn data len errno
          = (sys.write conn.ufd.fd data len errno, [Call.write conn.ufd.fd data len])
      ∧ client_sendv sys conn iov len errno
          = (sys.writev conn.ufd.fd iov (size_t_to_int len) errno,
              [Call.writev conn.ufd.fd iov (size_t_to_int len)])
      ∧ ((len : Int) ≤ INT_MAX →
          client_sendv sys conn iov len errno
            = (sys.writev conn.ufd.fd iov len errno, [Call.writev conn.ufd.fd iov len]))
      ∧ client_sendfile sys conn in_fd offset count errno
          = (sys.sendfile conn.ufd.fd in_fd offset count errno,
              [Call.sendfile conn.ufd.fd in_fd offset count])
      ∧ (∀ k ∈ (client_recv sys conn data len errno).2 ++ (client_send sys conn data len errno).2
            ++ (client_sendv sys conn iov len errno).2
            ++ (client_sendfile sys conn in_fd offset count errno).2, k.is_tls = false))
    ∧ (conn.ssl ≠ none →
      client_recv sys conn data len errno
          = (sys.uwsd_ssl_recv conn data len errno, [Call.uwsd_ssl_recv conn data len])
      ∧ client_send sys conn data len errno
          = (sys.uwsd_ssl_send conn data len errno, [Call.uwsd_ssl_send conn data len])
      ∧ client_sendv sys conn iov len errno
          = (sys.uwsd_ssl_sendv conn iov len errno, [Call.uwsd_ssl_sendv conn iov len])
      ∧ (∀ k ∈ (client_recv sys conn data len errno).2 ++ (client_send sys conn data len errno).2
            ++ (client_sendv sys conn iov len errno).2, k.is_raw = false)) := by
  constructor
  · intro h
    refine ⟨?_, ?_, ?_, ?_, ?_, ?_⟩
    · simp [client_recv, h]
    · simp [client_send, h]
    · simp [client_sendv, h]
    · intro hlen
      simp [client_sendv, h, size_t_to_int_of_le len hlen]
    · simp [client_sendfile, h]
    · simp [client_recv, client_send, client_sendv, client_sendfile, h, Call.is_tls]
  · intro h
    obtain ⟨p, hp⟩ := Option.ne_none_iff_exists'.mp h
    simp [client_recv, client_send, client_sendv, hp, Call.is_raw]

/-- Witness of the amended C7: the plain connection reaches `read` and, with 16
iovecs, `writev` with `iovcnt` 16; the encrypted one reaches `uwsd_ssl_recv`. -/
theorem transport_parity_witness :
    plain_conn.ssl = none ∧ tls_conn.ssl ≠ none ∧ ((16 : Nat) : Int) ≤ INT_MAX
    ∧ client_recv sys0 plain_conn 1 16 0 = ({ ret := 16, errno := 0 }, [Call.read 7 1 16])
    ∧ client_sendv sys0 plain_conn 2 16 0 = ({ ret := 18, errno := 0 }, [Call.writev 7 2 16])
    ∧ client_recv sys0 tls_conn 1 16 0
        = ({ ret := 20, errno := 0 }, [Call.uwsd_ssl_recv tls_conn 1 16]) :=
  ⟨rfl, by decide, by decide,
    ((transport_parity sys0 plain_conn 1 2 16 3 none 5 0).1 rfl).1,
    ((transport_parity sys0 plain_conn 1 2 16 3 none 5 0).1 rfl).2.2.2.1 (by decide),
    ((transport_parity sys0 tls_conn 1 2 16 3 none 5 0).2 (by decide)).1⟩

/-- Counterexample to C7 as stated: on the unencrypted connection on descriptor
7, `client_sendv` with `len` = 2^32 + 1 calls `writev` with `iovcnt` 1 and returns
its result 3; that is not the result of `writev` with the same `len`. -/
theorem transport_parity_sendv_refuted :
    plain_conn.ssl = none
    ∧ client_sendv sys0 plain_conn 2 4294967297 0
        = ({ ret := 3, errno := 0 }, [Call.writev 7 2 1])
    ∧ client_sendv sys0 plain_conn 2 4294967297 0
        ≠ (sys0.writev plain_conn.ufd.fd 2 4294967297 0,
            [Call.writev plain_conn.ufd.fd 2 4294967297]) := by
  refine ⟨rfl, by decide, by decide⟩

/-! ## `client_create` theorems -/

/-- C8: the context `client_create` builds has both buffers empty with the
cursors at the buffer start (so `0 ≤ pos ≤ end ≤ capacity`), the upstream marker
set, the downstream descriptor `fd`, the upstream and script descriptors -1, an
empty frame queue, and its first `alen` address bytes are the first `alen` bytes
of `peeraddr` (a peer address that holds at least `alen` bytes); the registry
afterwards is the previous registry with the context appended at the tail. -/
theorem client_create_context (uwsd_ssl_init : Ptr → Bool) (cl : Ptr)
    (obj : uwsd_client_context_t) (fd : Int) (srv : Option Ptr) (peeraddr : List Nat)
    (alen : Nat) (ssl : Bool) (s : State) (halen : alen ≤ peeraddr.length) :
    ∃ c, (client_create uwsd_ssl_init cl obj fd srv peeraddr alen ssl s).1.heap cl = some c
      ∧ c.rxbuf.pos = 0 ∧ c.rxbuf.«end» = 0
      ∧ c.txbuf.pos = 0 ∧ c.txbuf.«end» = 0
      ∧ (0 ≤ c.rxbuf.pos ∧ c.rxbuf.pos ≤ c.rxbuf.«end» ∧ c.rxbuf.«end» ≤ c.rxbuf.data.length)
      ∧ (0 ≤ c.txbuf.pos ∧ c.txbuf.pos ≤ c.txbuf.«end» ∧ c.txbuf.«end» ≤ c.txbuf.data.length)
      ∧ c.rxbuf.data = obj.rxbuf.data ∧ c.txbuf.data = obj.txbuf.data
      ∧ c.upstream.upstream = true
      ∧ c.downstream.ufd.fd = fd
      ∧ c.upstream.ufd.fd = -1
      ∧ c.script.fd = -1
      ∧ c.ws.txq = []
      ∧ c.sa.take alen = peeraddr.take alen
      ∧ (client_create uwsd_ssl_init cl obj fd srv peeraddr alen ssl s).1.clients
          = s.clients ++ [cl]
      ∧ (client_create uwsd_ssl_init cl obj fd srv peeraddr alen ssl s).1.clients.length
          = s.clients.length + 1 := by
  have htake : (memcpy obj.sa peeraddr alen).take alen = peeraddr.take alen := by
    unfold memcpy
    rw [List.take_append_of_le_length (by simp [halen])]
    simp
  cases ssl <;> cases hinit : uwsd_ssl_init cl <;>
    simp [client_create, hinit, htake]

/-- Witness of C8: an IPv4 peer address of 16 bytes on descriptor 5. -/
theorem client_create_context_witness :
    (16 : Nat) ≤ (List.range 16).length
    ∧ ∃ c, (client_create (fun _ => true) 1 zero_obj 5 (some 40) (List.range 16) 16 false
          empty_state).1.heap 1 = some c
      ∧ c.rxbuf.pos = 0 ∧ c.rxbuf.«end» = 0
      ∧ c.txbuf.pos = 0 ∧ c.txbuf.«end» = 0
      ∧ (0 ≤ c.rxbuf.pos ∧ c.rxbuf.pos ≤ c.rxbuf.«end» ∧ c.rxbuf.«end» ≤ c.rxbuf.data.length)
      ∧ (0 ≤ c.txbuf.pos ∧ c.txbuf.pos ≤ c.txbuf.«end» ∧ c.txbuf.«end» ≤ c.txbuf.data.length)
      ∧ c.rxbuf.data = zero_obj.rxbuf.data ∧ c.txbuf.data = zero_obj.txbuf.data
      ∧ c.upstream.upstream = true
      ∧ c.downstream.ufd.fd = 5
      ∧ c.upstream.ufd.fd = -1
      ∧ c.script.fd = -1
      ∧ c.ws.txq = []
      ∧ c.sa.take 16 = (List.range 16).take 16
      ∧ (client_create (fun _ => true) 1 zero_obj 5 (some 40) (List.range 16) 16 false
          empty_state).1.clients = empty_state.clients ++ [1]
      ∧ (client_create (fun _ => true) 1 zero_obj 5 (some 40) (List.range 16) 16 false
          empty_state).1.clients.length = empty_state.clients.length + 1 :=
  ⟨by decide,
    client_create_context (fun _ => true) 1 zero_obj 5 (some 40) (List.range 16) 16 false
      empty_state (by decide)⟩

/-- C9: in one call of `client_create`, `uwsd_state_init` is invoked exactly once,
with `STATE_CONN_ACCEPT`, when `ssl` is false or `uwsd_ssl_init` succeeds, and
not at all otherwise; `uwsd_ssl_init` is invoked (once) exactly when `ssl` is
true; and when `ssl` is true and `uwsd_ssl_init` fails, the call to
`uwsd_ssl_init` is the only thing `client_create` does after registering the
context: the context is still in the registry and on the heap, and there is no
release of it and no call of the state machine. -/
theorem client_create_handoff (uwsd_ssl_init : Ptr → Bool) (cl : Ptr)
    (obj : uwsd_client_context_t) (fd : Int) (srv : Option Ptr) (peeraddr : List Nat)
    (alen : Nat) (ssl : Bool) (s : State) :
    ((client_create uwsd_ssl_init cl obj fd srv peeraddr alen ssl s).2.count
        (Event.uwsd_state_init cl uwsd_connection_state_t.STATE_CONN_ACCEPT) = 1
      ↔ (ssl = false ∨ uwsd_ssl_init cl = true))
    ∧ ((∃ p st, Event.uwsd_state_init p st
          ∈ (client_create uwsd_ssl_init cl obj fd srv peeraddr alen ssl s).2)
      ↔ (ssl = false ∨ uwsd_ssl_init cl = true))
    ∧ (∀ p st, Event.uwsd_state_init p st
          ∈ (client_create uwsd_ssl_init cl obj fd srv peeraddr alen ssl s).2 →
        p = cl ∧ st = uwsd_connection_state_t.STATE_CONN_ACCEPT)
    ∧ ((∃ p, Event.uwsd_ssl_init p
          ∈ (client_create uwsd_ssl_init cl obj fd srv peeraddr alen ssl s).2) ↔ ssl = true)
    ∧ ((client_create uwsd_ssl_init cl obj fd srv peeraddr alen ssl s).2.count
        (Event.uwsd_ssl_init cl) = if ssl then 1 else 0)
    ∧ (ssl = true → uwsd_ssl_init cl = false →
        (client_create uwsd_ssl_init cl obj fd srv peeraddr alen ssl s).2
          = [Event.uwsd_ssl_init cl]
        ∧ cl ∈ (client_create uwsd_ssl_init cl obj fd srv peeraddr alen ssl s).1.clients
        ∧ (client_create uwsd_ssl_init cl obj fd srv peeraddr alen ssl s).1.clients
            = s.clients ++ [cl]
        ∧ (client_create uwsd_ssl_init cl obj fd srv peeraddr alen ssl s).1.heap cl ≠ none)
    ∧ (∀ p acts, Event.client_free p acts
          ∉ (client_create uwsd_ssl_init cl obj fd srv peeraddr alen ssl s).2) := by
  cases ssl <;> cases hinit : uwsd_ssl_init cl <;>
    simp [client_create, hinit]

/-- Witness of C9: an encrypted accept whose `uwsd_ssl_init` fails. -/
theorem client_create_handoff_witness :
    (client_create (fun _ => false) 1 zero_obj 5 (some 40) (List.range 16) 16 true
        empty_state).2 = [Event.uwsd_ssl_init 1]
    ∧ 1 ∈ (client_create (fun _ => false) 1 zero_obj 5 (some 40) (List.range 16) 16 true
        empty_state).1.clients
    ∧ (client_create (fun _ => false) 1 zero_obj 5 (some 40) (List.range 16) 16 true
        empty_state).1.clients = empty_state.clients ++ [1]
    ∧ (client_create (fun _ => false) 1 zero_obj 5 (some 40) (List.range 16) 16 true
        empty_state).1.heap 1 ≠ none :=
  (client_create_handoff (fun _ => false) 1 zero_obj 5 (some 40) (List.range 16) 16 true
    empty_state).2.2.2.2.2.1 rfl rfl

/-! ## `client_free` theorems -/

theorem free_headers_eq (n : Nat) : free_headers n = (0, header_frees n) := by
  induction n with
  | zero => simp [free_headers, header_frees]
  | succ n ih =>
    simp [free_headers, ih, header_frees, List.range_succ, List.reverse_append]

theorem mem_header_frees (n : Nat) (a : Action) :
    a ∈ header_frees n ↔
      ∃ i, i < n ∧ (a = Action.free_header_name i ∨ a = Action.free_header_value i) := by
  simp [header_frees, List.mem_flatMap]

theorem header_frees_succ (n : Nat) :
    header_frees (n + 1)
      = Action.free_header_name n :: Action.free_header_value n :: header_frees n := by
  simp [header_frees, List.range_succ, List.reverse_append]

theorem header_frees_nodup (n : Nat) : (header_frees n).Nodup := by
  induction n with
  | zero => simp [header_frees]
  | succ n ih =>
    rw [header_frees_succ]
    refine List.nodup_cons.mpr ⟨?_, List.nodup_cons.mpr ⟨?_, ih⟩⟩
    · simp [mem_header_frees]
    · simp [mem_header_frees]

theorem free_txq_nodup (q : List Ptr) (h : q.Nodup) : (q.map Action.free_txq).Nodup :=
  List.Nodup.map (fun _ _ hab => by injection hab) h

/-- The actions of `client_release`, as one list. -/
theorem client_release_actions (c : uwsd_client_context_t) :
    (client_release c).2 =
      [Action.uloop_timeout_cancel Side.upstream, Action.uloop_fd_delete Side.upstream]
      ++ (if c.upstream.ufd.fd ≠ -1 then [Action.close Desc.upstream c.upstream.ufd.fd] else [])
      ++ [Action.uloop_timeout_cancel Side.downstream, Action.uloop_fd_delete Side.downstream]
      ++ (if c.downstream.ufd.fd ≠ -1 then [Action.close Desc.downstream c.downstream.ufd.fd]
          else [])
      ++ (if c.downstream.ssl ≠ none then [Action.uwsd_ssl_free] else [])
      ++ (if c.script.fd ≠ -1 then [Action.close Desc.script c.script.fd] else [])
      ++ c.ws.txq.map Action.free_txq
      ++ [Action.uwsd_script_close]
      ++ header_frees c.http_num_headers
      ++ [Action.free_http_headers, Action.free_request_uri, Action.free_error_msg] := by
  simp only [client_release, free_headers_eq]
  cases hssl : c.downstream.ssl <;>
    by_cases h1 : c.upstream.ufd.fd = -1 <;>
    by_cases h2 : c.downstream.ufd.fd = -1 <;>
    by_cases h3 : c.script.fd = -1 <;>
    simp [h1, h2, h3]

/-- The result of `client_free` on a live context. -/
theorem client_free_eq (s : State) (cl : Ptr) (c : uwsd_client_context_t)
    (hc : s.heap cl = some c) :
    client_free s cl = Except.ok
      ({ clients := s.clients.erase cl, heap := fun q => if q = cl then none else s.heap q },
        (client_release c).2 ++ [Action.list_del, Action.free_cl]) := by
  simp only [client_free, hc]

/-- The actions of `client_release` are pairwise different when the frame queue
holds no node twice. -/
theorem client_release_nodup (c : uwsd_client_context_t) (htxq : c.ws.txq.Nodup) :
    ((client_release c).2 ++ [Action.list_del, Action.free_cl]).Nodup := by
  rw [client_release_actions]
  have hq := free_txq_nodup c.ws.txq htxq
  have hh := header_frees_nodup c.http_num_headers
  cases hssl : c.downstream.ssl <;>
    by_cases h1 : c.upstream.ufd.fd = -1 <;>
    by_cases h2 : c.downstream.ufd.fd = -1 <;>
    by_cases h3 : c.script.fd = -1 <;>
    simp [h1, h2, h3, List.nodup_append, List.nodup_cons, hq, hh, mem_header_frees,
      List.disjoint_left] <;>
    (rintro a x _ (rfl | rfl) <;> simp)

/-- C1: `client_free(cl, reason)` performs its release actions in exactly this
order: cancel the upstream timeout; deregister the upstream fd; close the
upstream fd iff it is not -1; cancel the downstream timeout; deregister the
downstream fd; close the downstream fd iff it is not -1; `uwsd_ssl_free` iff
`downstream.ssl` is set; close the script fd iff it is not -1; free every entry
of `ws.txq` in queue order; `uwsd_script_close`; free the header pairs from the
last index down to 0 (name, then value), which leaves `http_num_headers` at 0;
free the header array, the request URI and the error message; unlink `cl`; free
`cl`. The list is the whole trace, so nothing else is released; and no action
occurs twice in it when the frame queue, an intrusive list, holds no node
twice. -/
theorem client_free_order (s : State) (cl : Ptr) (c : uwsd_client_context_t)
    (hc : s.heap cl = some c) :
    ∃ s' acts, client_free s cl = Except.ok (s', acts)
      ∧ acts =
        [Action.uloop_timeout_cancel Side.upstream, Action.uloop_fd_delete Side.upstream]
        ++ (if c.upstream.ufd.fd ≠ -1 then [Action.close Desc.upstream c.upstream.ufd.fd]
            else [])
        ++ [Action.uloop_timeout_cancel Side.downstream,
            Action.uloop_fd_delete Side.downstream]
        ++ (if c.downstream.ufd.fd ≠ -1
            then [Action.close Desc.downstream c.downstream.ufd.fd] else [])
        ++ (if c.downstream.ssl ≠ none then [Action.uwsd_ssl_free] else [])
        ++ (if c.script.fd ≠ -1 then [Action.close Desc.script c.script.fd] else [])
        ++ c.ws.txq.map Action.free_txq
        ++ [Action.uwsd_script_close]
        ++ header_frees c.http_num_headers
        ++ [Action.free_http_headers, Action.free_request_uri, Action.free_error_msg,
            Action.list_del, Action.free_cl]
      ∧ (client_release c).1.http_num_headers = 0
      ∧ (c.ws.txq.Nodup → acts.Nodup)
      ∧ s'.heap cl = none := by
  refine ⟨_, _, client_free_eq s cl c hc, ?_, ?_, ?_, ?_⟩
  · rw [client_release_actions]
    simp
  · simp [client_release, free_headers_eq]
  · exact client_release_nodup c
  · simp

/-- Witness of C1: the encrypted context with two queued frames and two headers. -/
theorem client_free_order_witness :
    busy_state.heap 1 = some busy_ctx
    ∧ ∃ s' acts, client_free busy_state 1 = Except.ok (s', acts)
      ∧ acts =
        [Action.uloop_timeout_cancel Side.upstream, Action.uloop_fd_delete Side.upstream]
        ++ (if busy_ctx.upstream.ufd.fd ≠ -1
            then [Action.close Desc.upstream busy_ctx.upstream.ufd.fd] else [])
        ++ [Action.uloop_timeout_cancel Side.downstream,
            Action.uloop_fd_delete Side.downstream]
        ++ (if busy_ctx.downstream.ufd.fd ≠ -1
            then [Action.close Desc.downstream busy_ctx.downstream.ufd.fd] else [])
        ++ (if busy_ctx.downstream.ssl ≠ none then [Action.uwsd_ssl_free] else [])
        ++ (if busy_ctx.script.fd ≠ -1 then [Action.close Desc.script busy_ctx.script.fd]
            else [])
        ++ busy_ctx.ws.txq.map Action.free_txq
        ++ [Action.uwsd_script_close]
        ++ header_frees busy_ctx.http_num_headers
        ++ [Action.free_http_headers, Action.free_request_uri, Action.free_error_msg,
            Action.list_del, Action.free_cl]
      ∧ (client_release busy_ctx).1.http_num_headers = 0
      ∧ (busy_ctx.ws.txq.Nodup → acts.Nodup)
      ∧ s'.heap 1 = none :=
  ⟨rfl, client_free_order busy_state 1 busy_ctx rfl⟩

/-- C2, as the code has it: for a context whose downstream connection is
encrypted and whose downstream descriptor is open, `client_free` closes the
downstream descriptor first and calls `uwsd_ssl_free` right after it; each of
the two happens once. -/
theorem client_free_close_then_ssl_free (s : State) (cl : Ptr) (c : uwsd_client_context_t)
    (hc : s.heap cl = some c) (hssl : c.downstream.ssl ≠ none)
    (hfd : c.downstream.ufd.fd ≠ -1) :
    ∃ s' pre post, client_free s cl = Except.ok (s',
        pre ++ Action.close Desc.downstream c.downstream.ufd.fd
          :: Action.uwsd_ssl_free :: post)
      ∧ Action.uwsd_ssl_free ∉ pre ∧ Action.uwsd_ssl_free ∉ post
      ∧ (∀ fd, Action.close Desc.downstream fd ∉ pre)
      ∧ (∀ fd, Action.close Desc.downstream fd ∉ post) := by
  refine ⟨{ clients := s.clients.erase cl,
             heap := fun q => if q = cl then none else s.heap q },
    [Action.uloop_timeout_cancel Side.upstream, Action.uloop_fd_delete Side.upstream]
      ++ (if c.upstream.ufd.fd ≠ -1 then [Action.close Desc.upstream c.upstream.ufd.fd]
          else [])
      ++ [Action.uloop_timeout_cancel Side.downstream, Action.uloop_fd_delete Side.downstream],
    (if c.script.fd ≠ -1 then [Action.close Desc.script c.script.fd] else [])
      ++ c.ws.txq.map Action.free_txq
      ++ [Action.uwsd_script_close]
      ++ header_frees c.http_num_headers
      ++ [Action.free_http_headers, Action.free_request_uri, Action.free_error_msg,
          Action.list_del, Action.free_cl],
    ?_, ?_, ?_, ?_, ?_⟩
  · rw [client_free_eq s cl c hc, client_release_actions]
    simp [hssl, hfd]
  · by_cases h1 : c.upstream.ufd.fd = -1 <;> simp [h1]
  · by_cases h3 : c.script.fd = -1 <;> simp [h3, mem_header_frees]
  · intro fd
    by_cases h1 : c.upstream.ufd.fd = -1 <;> simp [h1]
  · intro fd
    by_cases h3 : c.script.fd = -1 <;> simp [h3, mem_header_frees]

/-- Witness of the amended C2 on the encrypted context at address 1. -/
theorem client_free_close_then_ssl_free_witness :
    busy_state.heap 1 = some busy_ctx ∧ busy_ctx.downstream.ssl ≠ none
    ∧ busy_ctx.downstream.ufd.fd ≠ -1
    ∧ ∃ s' pre post, client_free busy_state 1 = Except.ok (s',
        pre ++ Action.close Desc.downstream busy_ctx.downstream.ufd.fd
          :: Action.uwsd_ssl_free :: post)
      ∧ Action.uwsd_ssl_free ∉ pre ∧ Action.uwsd_ssl_free ∉ post
      ∧ (∀ fd, Action.close Desc.downstream fd ∉ pre)
      ∧ (∀ fd, Action.close Desc.downstream fd ∉ post) :=
  ⟨rfl, by decide, by decide,
    client_free_close_then_ssl_free busy_state 1 busy_ctx rfl (by decide) (by decide)⟩

/-- Counterexample to C2 as stated: the context at address 1 has an encrypted
downstream connection on the open descriptor 5, and `client_free` closes
descriptor 5 before it releases the session. -/
theorem ssl_free_before_close_refuted :
    busy_state.heap 1 = some busy_ctx ∧ busy_ctx.downstream.ssl ≠ none
    ∧ busy_ctx.downstream.ufd.fd ≠ -1
    ∧ ∃ s' acts, client_free busy_state 1 = Except.ok (s', acts)
      ∧ Action.close Desc.downstream 5 ∈ acts ∧ Action.uwsd_ssl_free ∈ acts
      ∧ acts.indexOf (Action.close Desc.downstream 5) < acts.indexOf Action.uwsd_ssl_free :=
  ⟨rfl, by decide, by decide, _, _, rfl, by decide, by decide, by decide⟩

theorem close_of_header_frees (n : Nat) :
    (header_frees n).filterMap Action.close_of = [] := by
  rw [List.filterMap_eq_nil_iff]
  intro a ha
  obtain ⟨i, _, rfl | rfl⟩ := (mem_header_frees n a).mp ha <;> rfl

theorem close_of_free_txq (q : List Ptr) :
    (q.map Action.free_txq).filterMap Action.close_of = [] := by
  rw [List.filterMap_eq_nil_iff]
  intro a ha
  obtain ⟨e, _, rfl⟩ := List.mem_map.mp ha
  rfl

theorem count_close_eq (d : Desc) (fd : Int) (acts : List Action) :
    acts.count (Action.close d fd) = (acts.filterMap Action.close_of).count (d, fd) := by
  induction acts with
  | nil => rfl
  | cons a rest ih =>
    cases a <;> simp [List.count_cons, Action.close_of, List.filterMap_cons, ih]

theorem mem_close_iff (d : Desc) (fd : Int) (acts : List Action) :
    Action.close d fd ∈ acts ↔ (d, fd) ∈ acts.filterMap Action.close_of := by
  induction acts with
  | nil => simp
  | cons a rest ih =>
    cases a <;> simp [Action.close_of, List.filterMap_cons, ih]

/-- The closes of `client_release`: one per descriptor field that is not -1. -/
theorem client_release_closes (c : uwsd_client_context_t) :
    ((client_release c).2 ++ [Action.list_del, Action.free_cl]).filterMap Action.close_of
      = [(Desc.upstream, c.upstream.ufd.fd), (Desc.downstream, c.downstream.ufd.fd),
          (Desc.script, c.script.fd)].filter (fun x => x.2 != -1) := by
  rw [client_release_actions]
  cases hssl : c.downstream.ssl <;>
    by_cases h1 : c.upstream.ufd.fd = -1 <;>
    by_cases h2 : c.downstream.ufd.fd = -1 <;>
    by_cases h3 : c.script.fd = -1 <;>
    simp [h1, h2, h3, List.filterMap_append, Action.close_of, close_of_header_frees,
      close_of_free_txq, List.filter_cons, List.filterMap_cons]

/-- C3: for a context `cl` in the registry (a list without repetition), one call
of `client_free` leaves the registry equal to the previous one with `cl`
removed: one shorter, `cl` gone, every other context still present in its
previous relative order. It closes each of the upstream, downstream and script
descriptors that is not -1 exactly once, and closes nothing else: no close is
issued for a descriptor that holds -1. -/
theorem client_free_unregisters_and_closes (s : State) (cl : Ptr)
    (c : uwsd_client_context_t) (hc : s.heap cl = some c) (hmem : cl ∈ s.clients)
    (hnd : s.clients.Nodup) :
    ∃ s' acts, client_free s cl = Except.ok (s', acts)
      ∧ s'.clients = s.clients.filter (fun q => q != cl)
      ∧ s'.clients.length + 1 = s.clients.length
      ∧ cl ∉ s'.clients
      ∧ (∀ q, q ≠ cl → (q ∈ s'.clients ↔ q ∈ s.clients))
      ∧ s'.clients.Sublist s.clients
      ∧ acts.filterMap Action.close_of
          = [(Desc.upstream, c.upstream.ufd.fd), (Desc.downstream, c.downstream.ufd.fd),
              (Desc.script, c.script.fd)].filter (fun x => x.2 != -1)
      ∧ (∀ d, c.fd_of d ≠ -1 → acts.count (Action.close d (c.fd_of d)) = 1)
      ∧ (∀ d, Action.close d (-1) ∉ acts) := by
  have herase : s.clients.erase cl = s.clients.filter (fun q => q != cl) :=
    hnd.erase_eq_filter cl
  have hlen : (s.clients.erase cl).length + 1 = s.clients.length := by
    have hpos : 0 < s.clients.length := List.length_pos_of_mem hmem
    rw [List.length_erase_of_mem hmem]
    omega
  refine ⟨_, _, client_free_eq s cl c hc, herase, hlen, ?_, ?_,
    List.erase_sublist cl s.clients, ?_, ?_, ?_⟩
  · simp [hnd.mem_erase_iff]
  · intro q hq
    simp [hnd.mem_erase_iff, hq]
  · exact client_release_closes c
  · intro d hd
    rw [count_close_eq, client_release_closes]
    cases d <;> simp only [uwsd_client_context_t.fd_of] at hd ⊢ <;>
      by_cases h1 : c.upstream.ufd.fd = -1 <;>
      by_cases h2 : c.downstream.ufd.fd = -1 <;>
      by_cases h3 : c.script.fd = -1 <;>
      simp_all [List.filter_cons, List.count_cons]
  · intro d
    rw [mem_close_iff, client_release_closes]
    simp [List.mem_filter]

/-- Witness of C3: freeing the middle context of three. -/
theorem client_free_unregisters_and_closes_witness :
    busy_state.heap 2 = some plain_ctx ∧ 2 ∈ busy_state.clients ∧ busy_state.clients.Nodup
    ∧ ∃ s' acts, client_free busy_state 2 = Except.ok (s', acts)
      ∧ s'.clients = busy_state.clients.filter (fun q => q != 2)
      ∧ s'.clients.length + 1 = busy_state.clients.length
      ∧ 2 ∉ s'.clients
      ∧ (∀ q, q ≠ 2 → (q ∈ s'.clients ↔ q ∈ busy_state.clients))
      ∧ s'.clients.Sublist busy_state.clients
      ∧ acts.filterMap Action.close_of
          = [(Desc.upstream, plain_ctx.upstream.ufd.fd),
              (Desc.downstream, plain_ctx.downstream.ufd.fd),
              (Desc.script, plain_ctx.script.fd)].filter (fun x => x.2 != -1)
      ∧ (∀ d, plain_ctx.fd_of d ≠ -1 → acts.count (Action.close d (plain_ctx.fd_of d)) = 1)
      ∧ (∀ d, Action.close d (-1) ∉ acts) :=
  ⟨rfl, by decide, by decide,
    client_free_unregisters_and_closes busy_state 2 plain_ctx rfl (by decide) (by decide)⟩

/-! ## `client_free_all` theorems -/

theorem list_next_append (pre rest : List Ptr) (p : Ptr) (hp : p ∉ pre) :
    list_next (pre ++ p :: rest) p = some rest.head? := by
  induction pre with
  | nil => simp [list_next]
  | cons x xs ih =>
    have hx : x ≠ p := fun h => hp (by simp [h])
    have hxs : p ∉ xs := fun h => hp (by simp [h])
    simp [list_next, hx, ih hxs]

theorem visit_event_congr (h1 h2 : Ptr → Option uwsd_client_context_t) (p : Ptr)
    (h : h2 p = h1 p) : visit_event h2 p = visit_event h1 p := by
  simp [visit_event, h]

theorem closing_hook_local : hook_local closing_hook := by
  intro cl code msg s
  refine ⟨Or.inr rfl, ?_⟩
  intro q hq
  simp [closing_hook, hq]

/-- The loop of `client_free_all`, started at the first node of `rest` with the
nodes before it already visited, visits the nodes of `rest` in order and ends. -/
theorem client_free_all_loop_spec (hook : Ptr → Nat → String → State → State)
    (hl : hook_local hook) :
    ∀ (rest pre : List Ptr) (s : State) (log : List Event) (fuel : Nat),
      s.clients = pre ++ rest → (pre ++ rest).Nodup →
      (∀ p ∈ rest, ∃ c ep, s.heap p = some c ∧ c.endpoint = some ep) →
      rest.length ≤ fuel →
      ∃ s', client_free_all_loop hook fuel rest.head? s log
        = Except.ok (s', log ++ rest.map (visit_event s.heap)) := by
  intro rest
  induction rest with
  | nil =>
    intro pre s log fuel _ _ _ _
    exact ⟨s, by simp [client_free_all_loop]⟩
  | cons c0 rest ih =>
    intro pre s log fuel hcl hnd hheap hfuel
    obtain ⟨f, rfl⟩ : ∃ f, fuel = f + 1 := by
      cases fuel with
      | zero => simp at hfuel
      | succ f => exact ⟨f, rfl⟩
    have hf : rest.length ≤ f := by simpa using hfuel
    obtain ⟨c, ep, hc, hep⟩ := hheap c0 (by simp)
    have hc0pre : c0 ∉ pre := by
      intro h
      have := (List.nodup_append.mp hnd).2.2
      exact this h (by simp)
    have hc0rest : c0 ∉ rest := by
      have := (List.nodup_append.mp hnd).2.1
      exact (List.nodup_cons.mp this).1
    have hnext : list_next s.clients c0 = some rest.head? := by
      rw [hcl]
      exact list_next_append pre rest c0 hc0pre
    have herase : s.clients.erase c0 = pre ++ rest := by
      rw [hcl, List.erase_append_right _ hc0pre, List.erase_cons_head]
    have hnd1 : ((pre ++ [c0]) ++ rest).Nodup := by simpa using hnd
    have hnd2 : (pre ++ rest).Nodup := by
      have hsub : (pre ++ rest).Sublist (pre ++ c0 :: rest) :=
        List.Sublist.append_left (List.sublist_cons_self c0 rest) pre
      exact hnd.sublist hsub
    -- what remains of the loop after the visit of `c0`
    have cont : ∀ (s2 : State) (log2 : List Event),
        (s2.clients = s.clients ∨ s2.clients = s.clients.erase c0) →
        (∀ q, q ≠ c0 → s2.heap q = s.heap q) →
        ∃ s', client_free_all_loop hook f rest.head? s2 log2
          = Except.ok (s', log2 ++ rest.map (visit_event s.heap)) := by
      intro s2 log2 hcl2 hheap2
      have hne : ∀ p ∈ rest, p ≠ c0 := fun p hp h => hc0rest (h ▸ hp)
      have hheap3 : ∀ p ∈ rest, ∃ c ep, s2.heap p = some c ∧ c.endpoint = some ep := by
        intro p hp
        rw [hheap2 p (hne p hp)]
        exact hheap p (by simp [hp])
      have hmap : rest.map (visit_event s2.heap) = rest.map (visit_event s.heap) :=
        List.map_congr_left
          (fun p hp => visit_event_congr s.heap s2.heap p (hheap2 p (hne p hp)))
      rw [← hmap]
      rcases hcl2 with h | h
      · exact ih (pre ++ [c0]) s2 log2 f (by rw [h, hcl]; simp) hnd1 hheap3 hf
      · exact ih pre s2 log2 f (by rw [h, herase]) hnd2 hheap3 hf
    by_cases hg : ep.type = uwsd_listen_type.UWSD_LISTEN_WS
        ∨ ep.type = uwsd_listen_type.UWSD_LISTEN_WSS
    · have hev : visit_event s.heap c0 = Event.uwsd_ws_connection_close c0
          (if c.ws.error.code ≠ 0 then c.ws.error.code else STATUS_GOING_AWAY)
          (c.ws.error.msg.getD "Server shutting down") := by
        simp [visit_event, hc, uwsd_client_context_t.graceful, hep, hg]
      obtain ⟨s', hs'⟩ := cont
        (hook c0 (if c.ws.error.code ≠ 0 then c.ws.error.code else STATUS_GOING_AWAY)
          (c.ws.error.msg.getD "Server shutting down") s)
        (log ++ [visit_event s.heap c0]) (hl _ _ _ _).1 (hl _ _ _ _).2
      refine ⟨s', ?_⟩
      rw [List.head?_cons, client_free_all_loop]
      simp only [hc, hnext, hep, hg, if_true]
      have hmsg : (match c.ws.error.msg with
          | some m => m
          | none => "Server shutting down")
          = c.ws.error.msg.getD "Server shutting down" := by
        cases c.ws.error.msg <;> rfl
      rw [hmsg, ← hev, hs']
      simp
    · have hev : visit_event s.heap c0 = Event.client_free c0
          ((client_release c).2 ++ [Action.list_del, Action.free_cl]) := by
        simp [visit_event, hc, uwsd_client_context_t.graceful, hep, hg]
      obtain ⟨s', hs'⟩ := cont
        { clients := s.clients.erase c0, heap := fun q => if q = c0 then none else s.heap q }
        (log ++ [visit_event s.heap c0]) (Or.inr rfl) (fun q hq => by simp [hq])
      refine ⟨s', ?_⟩
      rw [List.head?_cons, client_free_all_loop]
      simp only [hc, hnext, hep, hg, if_false, client_free_eq s c0 c hc]
      rw [← hev, hs']
      simp

/-- The whole run of `client_free_all`: it ends, and its events are the visits of
the registry in order. -/
theorem client_free_all_run (hook : Ptr → Nat → String → State → State)
    (hl : hook_local hook) (s : State) (hnd : s.clients.Nodup)
    (hheap : ∀ p ∈ s.clients, ∃ c ep, s.heap p = some c ∧ c.endpoint = some ep) :
    ∃ s', client_free_all hook s = Except.ok (s', s.clients.map (visit_event s.heap)) := by
  obtain ⟨s', hs'⟩ := client_free_all_loop_spec hook hl s.clients [] s [] s.clients.length
    rfl (by simpa using hnd) hheap (le_refl _)
  exact ⟨s', by simpa [client_free_all] using hs'⟩

theorem visit_event_target (h : Ptr → Option uwsd_client_context_t) (p : Ptr) :
    (visit_event h p).target = p := by
  unfold visit_event
  cases h p with
  | none => rfl
  | some c => by_cases hg : c.graceful = true <;> simp [hg, Event.target]

theorem visit_event_is_ws_close (s : State) (p : Ptr) :
    (visit_event s.heap p).is_ws_close = s.graceful p := by
  unfold visit_event State.graceful
  cases s.heap p with
  | none => rfl
  | some c => by_cases hg : c.graceful = true <;> simp [hg, Event.is_ws_close]

theorem visit_event_is_client_free (s : State) (p : Ptr) :
    (visit_event s.heap p).is_client_free = !s.graceful p := by
  unfold visit_event State.graceful
  cases s.heap p with
  | none => rfl
  | some c => by_cases hg : c.graceful = true <;> simp [hg, Event.is_client_free]

theorem busy_state_endpoints :
    ∀ p ∈ busy_state.clients, ∃ c ep, busy_state.heap p = some c ∧ c.endpoint = some ep := by
  intro p hp
  simp only [busy_state, List.mem_cons, List.mem_singleton, List.not_mem_nil, or_false] at hp
  rcases hp with rfl | rfl | rfl
  · exact ⟨busy_ctx, _, rfl, rfl⟩
  · exact ⟨plain_ctx, _, rfl, rfl⟩
  · exact ⟨failed_ctx, _, rfl, rfl⟩

/-- C4: on a registry (a list without repetition) whose contexts all have an
endpoint, `client_free_all` ends after visiting every context exactly once in
registry order. A context whose endpoint type is `UWSD_LISTEN_WS` or
`UWSD_LISTEN_WSS` gets one call of `uwsd_ws_connection_close` and no
`client_free`; every other context gets one call of `client_free` and no
`uwsd_ws_connection_close`. So there are exactly N graceful closes and M frees,
N and M being the numbers of contexts of the two kinds. This holds for every
`uwsd_ws_connection_close` that leaves the registry alone or removes the
visited context from it. -/
theorem client_free_all_discriminates (hook : Ptr → Nat → String → State → State)
    (s : State) (hl : hook_local hook) (hnd : s.clients.Nodup)
    (hheap : ∀ p ∈ s.clients, ∃ c ep, s.heap p = some c ∧ c.endpoint = some ep) :
    ∃ s' log, client_free_all hook s = Except.ok (s', log)
      ∧ log.map Event.target = s.clients
      ∧ (∀ e ∈ log, e.is_ws_close = s.graceful e.target
          ∧ e.is_client_free = !s.graceful e.target)
      ∧ log.countP Event.is_ws_close = s.clients.countP s.graceful
      ∧ log.countP Event.is_client_free = s.clients.countP (fun p => !s.graceful p)
      ∧ log.countP Event.is_ws_close + log.countP Event.is_client_free = s.clients.length
      ∧ (∀ p acts, s.graceful p = true → Event.client_free p acts ∉ log)
      ∧ (∀ p code msg, s.graceful p = false →
          Event.uwsd_ws_connection_close p code msg ∉ log) := by
  obtain ⟨s', hs'⟩ := client_free_all_run hook hl s hnd hheap
  have hkind : ∀ e ∈ s.clients.map (visit_event s.heap),
      e.is_ws_close = s.graceful e.target ∧ e.is_client_free = !s.graceful e.target := by
    intro e he
    obtain ⟨p, _, rfl⟩ := List.mem_map.mp he
    rw [visit_event_target]
    exact ⟨visit_event_is_ws_close s p, visit_event_is_client_free s p⟩
  have hN : (s.clients.map (visit_event s.heap)).countP Event.is_ws_close
      = s.clients.countP s.graceful := by
    rw [List.countP_map]
    exact List.countP_congr (fun p _ => by simp [visit_event_is_ws_close])
  have hM : (s.clients.map (visit_event s.heap)).countP Event.is_client_free
      = s.clients.countP (fun p => !s.graceful p) := by
    rw [List.countP_map]
    exact List.countP_congr (fun p _ => by simp [visit_event_is_client_free])
  refine ⟨s', _, hs', ?_, hkind, hN, hM, ?_, ?_, ?_⟩
  · rw [List.map_map]
    have : Event.target ∘ visit_event s.heap = id := by
      funext p
      exact visit_event_target s.heap p
    rw [this, List.map_id]
  · rw [hN, hM]
    have := List.length_eq_countP_add_countP s.graceful s.clients
    rw [this]
    congr 1
    exact List.countP_congr (fun p _ => by simp)
  · intro p acts hg hmem
    have := (hkind _ hmem).2
    simp [Event.is_client_free, Event.target, hg] at this
  · intro p code msg hg hmem
    have := (hkind _ hmem).1
    simp [Event.is_ws_close, Event.target, hg] at this

/-- Witness of C4: three contexts (WSS, plain, WS) and a
`uwsd_ws_connection_close` that removes the visited context at once. -/
theorem client_free_all_discriminates_witness :
    hook_local closing_hook ∧ busy_state.clients.Nodup
    ∧ (∀ p ∈ busy_state.clients,
        ∃ c ep, busy_state.heap p = some c ∧ c.endpoint = some ep)
    ∧ ∃ s' log, client_free_all closing_hook busy_state = Except.ok (s', log)
      ∧ log.map Event.target = busy_state.clients
      ∧ (∀ e ∈ log, e.is_ws_close = busy_state.graceful e.target
          ∧ e.is_client_free = !busy_state.graceful e.target)
      ∧ log.countP Event.is_ws_close = busy_state.clients.countP busy_state.graceful
      ∧ log.countP Event.is_client_free
          = busy_state.clients.countP (fun p => !busy_state.graceful p)
      ∧ log.countP Event.is_ws_close + log.countP Event.is_client_free
          = busy_state.clients.length
      ∧ (∀ p acts, busy_state.graceful p = true → Event.client_free p acts ∉ log)
      ∧ (∀ p code msg, busy_state.graceful p = false →
          Event.uwsd_ws_connection_close p code msg ∉ log) :=
  ⟨closing_hook_local, by decide, busy_state_endpoints,
    client_free_all_discriminates closing_hook busy_state closing_hook_local (by decide)
      busy_state_endpoints⟩

/-- C5: for a context that `client_free_all` closes gracefully, the one call of
`uwsd_ws_connection_close` on it carries status = the recorded code if that is
non-zero, else `STATUS_GOING_AWAY`, and text = the recorded message if that is
non-null, else "Server shutting down"; the two are defaulted independently. So a
recorded error (code non-zero, message non-null) is passed on as it is, and no
recorded error gives `STATUS_GOING_AWAY` with "Server shutting down". -/
theorem client_free_all_close_status (hook : Ptr → Nat → String → State → State)
    (s : State) (hl : hook_local hook) (hnd : s.clients.Nodup)
    (hheap : ∀ p ∈ s.clients, ∃ c ep, s.heap p = some c ∧ c.endpoint = some ep)
    (p : Ptr) (c : uwsd_client_context_t) (hp : p ∈ s.clients) (hc : s.heap p = some c)
    (hg : c.graceful = true) :
    ∃ s' log, client_free_all hook s = Except.ok (s', log)
      ∧ Event.uwsd_ws_connection_close p
          (if c.ws.error.code ≠ 0 then c.ws.error.code else STATUS_GOING_AWAY)
          (c.ws.error.msg.getD "Server shutting down") ∈ log
      ∧ (∀ code msg, Event.uwsd_ws_connection_close p code msg ∈ log →
          code = (if c.ws.error.code ≠ 0 then c.ws.error.code else STATUS_GOING_AWAY)
          ∧ msg = c.ws.error.msg.getD "Server shutting down")
      ∧ (c.ws.error.code ≠ 0 → ∀ m, c.ws.error.msg = some m →
          Event.uwsd_ws_connection_close p c.ws.error.code m ∈ log)
      ∧ (c.ws.error.code = 0 → c.ws.error.msg = none →
          Event.uwsd_ws_connection_close p STATUS_GOING_AWAY "Server shutting down" ∈ log)
      ∧ (c.ws.error.code = 0 → ∀ m, c.ws.error.msg = some m →
          Event.uwsd_ws_connection_close p STATUS_GOING_AWAY m ∈ log)
      ∧ (c.ws.error.code ≠ 0 → c.ws.error.msg = none →
          Event.uwsd_ws_connection_close p c.ws.error.code "Server shutting down" ∈ log) := by
  obtain ⟨s', hs'⟩ := client_free_all_run hook hl s hnd hheap
  have hev : visit_event s.heap p = Event.uwsd_ws_connection_close p
      (if c.ws.error.code ≠ 0 then c.ws.error.code else STATUS_GOING_AWAY)
      (c.ws.error.msg.getD "Server shutting down") := by
    simp [visit_event, hc, hg]
  have hmem : Event.uwsd_ws_connection_close p
      (if c.ws.error.code ≠ 0 then c.ws.error.code else STATUS_GOING_AWAY)
      (c.ws.error.msg.getD "Server shutting down") ∈ s.clients.map (visit_event s.heap) :=
    List.mem_map.mpr ⟨p, hp, hev⟩
  refine ⟨s', _, hs', hmem, ?_, ?_, ?_, ?_, ?_⟩
  · intro code msg h
    obtain ⟨q, _, hq⟩ := List.mem_map.mp h
    have hqp : q = p := by
      have := congrArg Event.target hq
      rw [visit_event_target] at this
      exact this
    rw [hqp, hev] at hq
    injection hq with _ h2 h3
    exact ⟨h2.symm, h3.symm⟩
  · intro hcode m hm
    simpa [hcode, hm] using hmem
  · intro hcode hm
    simpa [hcode, hm] using hmem
  · intro hcode m hm
    simpa [hcode, hm] using hmem
  · intro hcode hm
    simpa [hcode, hm] using hmem

/-- Witness of C5: the WebSocket context at address 3 carries the recorded error
1002 "protocol error". -/
theorem client_free_all_close_status_witness :
    hook_local closing_hook ∧ busy_state.clients.Nodup
    ∧ (∀ p ∈ busy_state.clients,
        ∃ c ep, busy_state.heap p = some c ∧ c.endpoint = some ep)
    ∧ 3 ∈ busy_state.clients ∧ busy_state.heap 3 = some failed_ctx
    ∧ failed_ctx.graceful = true
    ∧ ∃ s' log, client_free_all closing_hook busy_state = Except.ok (s', log)
      ∧ Event.uwsd_ws_connection_close 3
          (if failed_ctx.ws.error.code ≠ 0 then failed_ctx.ws.error.code
            else STATUS_GOING_AWAY)
          (failed_ctx.ws.error.msg.getD "Server shutting down") ∈ log
      ∧ (∀ code msg, Event.uwsd_ws_connection_close 3 code msg ∈ log →
          code = (if failed_ctx.ws.error.code ≠ 0 then failed_ctx.ws.error.code
            else STATUS_GOING_AWAY)
          ∧ msg = failed_ctx.ws.error.msg.getD "Server shutting down")
      ∧ (failed_ctx.ws.error.code ≠ 0 → ∀ m, failed_ctx.ws.error.msg = some m →
          Event.uwsd_ws_connection_close 3 failed_ctx.ws.error.code m ∈ log)
      ∧ (failed_ctx.ws.error.code = 0 → failed_ctx.ws.error.msg = none →
          Event.uwsd_ws_connection_close 3 STATUS_GOING_AWAY "Server shutting down" ∈ log)
      ∧ (failed_ctx.ws.error.code = 0 → ∀ m, failed_ctx.ws.error.msg = some m →
          Event.uwsd_ws_connection_close 3 STATUS_GOING_AWAY m ∈ log)
      ∧ (failed_ctx.ws.error.code ≠ 0 → failed_ctx.ws.error.msg = none →
          Event.uwsd_ws_connection_close 3 failed_ctx.ws.error.code "Server shutting down"
            ∈ log) :=
  ⟨closing_hook_local, by decide, busy_state_endpoints, by decide, rfl, by decide,
    client_free_all_close_status closing_hook busy_state closing_hook_local (by decide)
      busy_state_endpoints 3 failed_ctx (by decide) rfl (by decide)⟩

/-! ## `client_create` followed by `client_free_all` -/

/-- The fields `client_create` writes and the one it does not: the new context
holds the listening descriptor in `srv`, and its `endpoint` is still what the
allocation held. -/
theorem client_create_endpoint_untouched (uwsd_ssl_init : Ptr → Bool) (cl : Ptr)
    (obj : uwsd_client_context_t) (fd : Int) (srv : Option Ptr) (peeraddr : List Nat)
    (alen : Nat) (ssl : Bool) (s : State) :
    ∃ c, (client_create uwsd_ssl_init cl obj fd srv peeraddr alen ssl s).1.heap cl = some c
      ∧ c.srv = srv ∧ c.endpoint = obj.endpoint := by
  cases ssl <;> cases hinit : uwsd_ssl_init cl <;> simp [client_create, hinit]

/-- C10 fails on the code: after any `client_create` on a daemon without
connections (zero-filled allocation, any descriptor, address, `ssl` flag and
`uwsd_ssl_init` outcome), the context is registered with a null `endpoint`, and
`client_free_all` stops at the read of `cl->endpoint->type`. -/
theorem client_free_all_after_create_null_deref
    (hook : Ptr → Nat → String → State → State) (uwsd_ssl_init : Ptr → Bool) (cl : Ptr)
    (fd : Int) (srv : Option Ptr) (peeraddr : List Nat) (alen : Nat) (ssl : Bool) :
    client_free_all hook
        (client_create uwsd_ssl_init cl zero_obj fd srv peeraddr alen ssl empty_state).1
      = Except.error Fault.null_deref := by
  cases ssl <;> cases hinit : uwsd_ssl_init cl <;>
    simp [client_create, hinit, client_free_all, client_free_all_loop, list_next, zero_obj,
      empty_state]

end Uwsd
